import Mathlib

/-!
Shallow embedding of `homework.py` (a Telegram homework-status polling bot)
and verification of its specification claims.

The source file is a single Python module.  Pure logic (`check_tokens`,
`get_api_answer` past the transport boundary, `check_response`,
`parse_status`, and the body of the `main` polling loop) is translated into
executable Lean definitions.  The two external effects — the HTTP transport
(`requests.get` + `.json()`) and the Telegram delivery (`bot.send_message`)
— are modelled as per-cycle oracles supplied in a `CycleEnv`; invocations of
the API client and the Notifier are recorded as `Event`s so that claims
that count invocations can be stated.
-/

set_option maxHeartbeats 1000000

namespace HomeworkBot

/-- JSON-like dynamic values, modelling the Python values that flow through
the bot (decoded JSON bodies, homework records, the poll cursor). -/
inductive JVal where
  | null : JVal
  | bool : Bool → JVal
  | int : Int → JVal
  | str : String → JVal
  | list : List JVal → JVal
  | obj : List (String × JVal) → JVal

/-- Association-list lookup, modelling Python `dict[key]` / `key in dict`
(first binding wins; Python dicts cannot hold duplicate keys). -/
def jLookup {α : Type} : List (String × α) → String → Option α
  | [], _ => none
  | (k, v) :: rest, key => if k == key then some v else jLookup rest key

/-- Python `d.get(key, default)` on a decoded JSON value.  All call sites in
the source apply it to a value already checked to be a dict. -/
def jGetD (response : JVal) (key : String) (dflt : JVal) : JVal :=
  match response with
  | .obj fields => (jLookup fields key).getD dflt
  | _ => dflt

def jIsObj : JVal → Bool
  | .obj _ => true
  | _ => false

def jIsList : JVal → Bool
  | .list _ => true
  | _ => false

/-- An apostrophe character, as it appears inside Python `str(type(x))` and
`str(KeyError(...))` renderings. -/
def sq : String := String.singleton (Char.ofNat 39)

/-- Python `type(x)` names for the modelled value universe. -/
def pyTypeName : JVal → String
  | .null => "NoneType"
  | .bool _ => "bool"
  | .int _ => "int"
  | .str _ => "str"
  | .list _ => "list"
  | .obj _ => "dict"

/-- Python `str(type(x))`, e.g. `<class 'dict'>`, as interpolated by the
f-strings in `check_response`. -/
def pyTypeStr (v : JVal) : String := "<class " ++ sq ++ pyTypeName v ++ sq ++ ">"

mutual
/-- Python `repr` of a modelled value (used by f-string interpolation of
containers). -/
def pyRepr : JVal → String
  | .null => "None"
  | .bool true => "True"
  | .bool false => "False"
  | .int n => toString n
  | .str s => sq ++ s ++ sq
  | .list l => "[" ++ pyReprList l ++ "]"
  | .obj l => "\x7b" ++ pyReprFields l ++ "\x7d"

def pyReprList : List JVal → String
  | [] => ""
  | [v] => pyRepr v
  | v :: rest => pyRepr v ++ ", " ++ pyReprList rest

def pyReprFields : List (String × JVal) → String
  | [] => ""
  | [(k, v)] => sq ++ k ++ sq ++ ": " ++ pyRepr v
  | (k, v) :: rest => sq ++ k ++ sq ++ ": " ++ pyRepr v ++ ", " ++ pyReprFields rest
end

/-- Python `f-string` / `str()` rendering of a modelled value. -/
def pyFStr : JVal → String
  | .null => "None"
  | .bool true => "True"
  | .bool false => "False"
  | .int n => toString n
  | .str s => s
  | .list l => pyRepr (.list l)
  | .obj l => pyRepr (.obj l)

/-- The exceptions the program can raise, as a closed taxonomy (spec §7).
`tokenError` is `exceptions.TokenError`; `requestError` is the generic
`Exception` raised in `get_api_answer` with `from error` (so it carries the
underlying cause); `valueError` / `typeError` / `keyError` are the Python
builtins; `apiTelegramError` is `telebot.apihelper.ApiTelegramException`
raised by delivery. -/
inductive PyError where
  | tokenError : String → PyError
  | requestError : String → String → PyError
  | valueError : String → PyError
  | typeError : String → PyError
  | keyError : String → PyError
  | apiTelegramError : String → PyError
deriving DecidableEq

/-- Python `str(exception)` as interpolated by
`f'Сбой в работе программы: {error}'`: for `KeyError` the argument is
repr'd (surrounded by apostrophes); for the other exception classes it is
the message itself. -/
def pyStrErr : PyError → String
  | .tokenError m => m
  | .requestError m _ => m
  | .valueError m => m
  | .typeError m => m
  | .keyError m => sq ++ m ++ sq
  | .apiTelegramError m => m

/-- The `__cause__` of an exception (set by `raise ... from error`). -/
def pyCause : PyError → Option String
  | .requestError _ c => some c
  | _ => none

/-- Outcome of the single `requests.get` performed in a cycle:
either the transport raises `requests.RequestException` (carrying `str` of
the cause), or a response arrives with a status code and a decoded JSON
body.  (JSON-decode failure of a 200 response is not modelled; no claim
concerns it.) -/
inductive HttpResult where
  | transportFail : String → HttpResult
  | response : Int → JVal → HttpResult

/-- `HOMEWORK_VERDICTS` from the source, as an association list. -/
def HOMEWORK_VERDICTS : List (String × String) :=
  [("approved", "Работа проверена: ревьюеру всё понравилось. Ура!"),
   ("reviewing", "Работа взята на проверку ревьюером."),
   ("rejected", "Работа проверена: у ревьюера есть замечания.")]

/-- Python truthiness of an optional environment string: `not value` is
true for an unset variable (`None`) and for the empty string. -/
def pyTruthyStr : Option String → Bool
  | none => false
  | some s => !(s == "")

/-- `check_tokens`: validates the three environment secrets; raises
`TokenError` naming every missing one, joined by `", "`, in declaration
order. -/
def check_tokens (practicum_token telegram_token telegram_chat_id : Option String) :
    Except PyError Unit :=
  let required_tokens : List (String × Option String) :=
    [("PRACTICUM_TOKEN", practicum_token),
     ("TELEGRAM_TOKEN", telegram_token),
     ("TELEGRAM_CHAT_ID", telegram_chat_id)]
  let missing_data := (required_tokens.filter (fun p => !pyTruthyStr p.2)).map (·.1)
  if missing_data ≠ [] then
    .error (.tokenError ("Отсутствуют данные: " ++ String.intercalate ", " missing_data))
  else
    .ok ()

/-- `get_api_answer` past the transport boundary: the single `requests.get`
outcome is the `HttpResult` argument.  A `requests.RequestException` is
re-raised as a generic `Exception` with the cause attached (`from error`);
a non-`HTTPStatus.OK` code raises `ValueError` with a fixed message; a 200
response yields the decoded body. -/
def get_api_answer (tr : HttpResult) : Except PyError JVal :=
  match tr with
  | .transportFail cause =>
      .error (.requestError
        ("Ошибка при запросе к API: " ++ cause ++ ". (from get_api_answer)") cause)
  | .response code body =>
      if code ≠ 200 then
        .error (.valueError "HTTP ошибка при запросе к эндпоинту API. (from get_api_answer)")
      else
        .ok body

/-- `check_response`: structural validation of the decoded body.  Pure
check — returns `()` and never alters its argument. -/
def check_response (response : JVal) : Except PyError Unit :=
  match response with
  | .obj fields =>
      match jLookup fields "homeworks" with
      | none =>
          .error (.keyError
            "В ответе API отсутствует ожидаемый ключ: homeworks. (from check_response)")
      | some homeworks =>
          if jIsList homeworks then
            .ok ()
          else
            .error (.typeError
              ("Под ключем homeworks получен " ++ pyTypeStr homeworks ++
               ". Ожидаемый тип - список. (from check_response)"))
  | v =>
      .error (.typeError
        ("Тип ответа API " ++ pyTypeStr v ++ ". Ожидаемый - словарь. (from check_response)"))

/-- `parse_status`: extracts and formats the status of one homework record.
For a non-mapping argument the Python membership test `key not in homework`
raises `TypeError` for non-iterables; the (unreachable in the loop, where
records come from a validated list) `str`/`list` corner is folded into the
same branch.  For a present but non-string `status`, dict membership is
`False` for hashable values, giving the `ValueError` path, and raises
`TypeError: unhashable type` for `list`/`dict` values. -/
def parse_status (homework : JVal) : Except PyError String :=
  match homework with
  | .obj fields =>
    let missing_keys :=
      ["homework_name", "status"].filter (fun k => !(fields.any (fun p => p.1 == k)))
    if missing_keys ≠ [] then
      .error (.keyError
        ("Отсутствуют ожидаемые ключи в объекте ДЗ: " ++
         String.intercalate ", " missing_keys ++ ". (from parse_status)"))
    else
      let homework_name := (jLookup fields "homework_name").getD .null
      let status := (jLookup fields "status").getD .null
      match status with
      | .str st =>
          match jLookup HOMEWORK_VERDICTS st with
          | some verdict =>
              .ok ("Изменился статус проверки работы \"" ++ pyFStr homework_name ++
                   "\". " ++ verdict)
          | none =>
              .error (.valueError
                ("Неожиданный статус домашней работы: " ++ st ++ ". (from parse_status)"))
      | .list _ => .error (.typeError ("unhashable type: " ++ sq ++ "list" ++ sq))
      | .obj _ => .error (.typeError ("unhashable type: " ++ sq ++ "dict" ++ sq))
      | other =>
          .error (.valueError
            ("Неожиданный статус домашней работы: " ++ pyFStr other ++ ". (from parse_status)"))
  | v =>
      .error (.typeError ("argument of type " ++ sq ++ pyTypeName v ++ sq ++ " is not iterable"))

/-- Observable actions of one loop iteration: the single API request (with
the `from_date` cursor it was issued with, line 138/72), an invocation of
the Notifier `send_message` (lines 148 and 161) with the message, and the
unconditional `finally: time.sleep(RETRY_PERIOD)` (line 165). -/
inductive Event where
  | apiRequest : JVal → Event
  | sendAttempt : String → Event
  | sleep : Event

/-- Per-cycle external-world oracle: the outcome of this cycle's single
HTTP request, and whether a `send_message` call in the status path
(line 148) resp. in the error path (line 161) would raise
`ApiTelegramException` (`some` carries its text) or succeed (`none`). -/
structure CycleEnv where
  http : HttpResult
  sendStatus : Option String
  sendError : Option String

/-- The orchestrator's mutable state: the two dedup strings initialised to
`''` (lines 126–127) and the poll cursor `timestamp` (line 132; a dynamic
Python value, since line 153 assigns whatever `current_date` holds). -/
structure BotState where
  last_sended_error_message : String
  last_sended_status_message : String
  timestamp : JVal

/-- Result of one pass of the `while True` body: `escaped` is an exception
that no `except` clause caught (which would terminate the loop), the
post-iteration state, and the recorded events. -/
structure StepOut where
  escaped : Option PyError
  state : BotState
  events : List Event

/-- The `try:` block of the loop body (lines 137–153), given the state at
entry.  Returns either the updated state or the exception that left the
block, together with the Notifier invocations made inside the block.
The `apiRequest` and `sleep` events are added uniformly in `iteration`. -/
def tryBody (env : CycleEnv) (s : BotState) : Except PyError BotState × List Event :=
  match get_api_answer env.http with
  | .error e => (.error e, [])
  | .ok response =>
    match check_response response with
    | .error e => (.error e, [])
    | .ok _ =>
      match jGetD response "homeworks" .null with
      | .list (homework :: _) =>
        match parse_status homework with
        | .error e => (.error e, [])
        | .ok message =>
          if s.last_sended_status_message ≠ message then
            match env.sendStatus with
            | some terr => (.error (.apiTelegramError terr), [.sendAttempt message])
            | none =>
                (.ok { s with last_sended_status_message := message,
                              timestamp := jGetD response "current_date" s.timestamp },
                 [.sendAttempt message])
          else
            (.ok { s with timestamp := jGetD response "current_date" s.timestamp }, [])
      | _ =>
        (.ok { s with timestamp := jGetD response "current_date" s.timestamp }, [])

/-- The diagnostic built at line 157: `f'Сбой в работе программы: {error}'`. -/
def errMessage (e : PyError) : String := "Сбой в работе программы: " ++ pyStrErr e

/-- The two `except` clauses of the loop (lines 154–162), applied to the
exception that left the `try` block.
`except telebot.apihelper.ApiTelegramException` only logs;
`except Exception` builds the diagnostic, dedups it against
`last_sended_error_message`, and attempts delivery under
`suppress(ApiTelegramException)` — the dedup assignment at line 162 runs
only when `send_message` returned without raising.  Total, because
`except Exception` is a catch-all for the program's exception taxonomy. -/
def exceptBlock (sendErrOutcome : Option String) (e : PyError) (s : BotState) :
    BotState × List Event :=
  match e with
  | .apiTelegramError _ => (s, [])
  | e =>
      if s.last_sended_error_message ≠ errMessage e then
        match sendErrOutcome with
        | some _ => (s, [.sendAttempt (errMessage e)])
        | none =>
            ({ s with last_sended_error_message := errMessage e },
             [.sendAttempt (errMessage e)])
      else
        (s, [])

/-- One full pass of the `while True` body (lines 135–165): the `try` block,
the two `except` clauses on its exception, and the `finally` sleep. -/
def iteration (env : CycleEnv) (s : BotState) : StepOut :=
  match tryBody env s with
  | (.ok s1, sends) =>
      { escaped := none, state := s1,
        events := .apiRequest s.timestamp :: sends ++ [.sleep] }
  | (.error e, sends) =>
      let handled := exceptBlock env.sendError e s
      { escaped := none, state := handled.1,
        events := .apiRequest s.timestamp :: sends ++ handled.2 ++ [.sleep] }

/-- Run the loop body over a finite prefix of cycle oracles, stopping early
only if an iteration lets an exception escape. -/
def runCycles : List CycleEnv → BotState → BotState × List Event
  | [], s => (s, [])
  | env :: rest, s =>
      let out := iteration env s
      match out.escaped with
      | some _ => (out.state, out.events)
      | none =>
          let (sf, evs) := runCycles rest out.state
          (sf, out.events ++ evs)

/-- `main` (lines 124–165): initialise the dedup strings, run
`check_tokens` (an uncaught `TokenError` terminates the process before the
loop, with no events), set the cursor to "now", and enter the loop. -/
def mainRun (practicum_token telegram_token telegram_chat_id : Option String)
    (now : Int) (envs : List CycleEnv) : Except PyError BotState × List Event :=
  match check_tokens practicum_token telegram_token telegram_chat_id with
  | .error e => (.error e, [])
  | .ok _ =>
      let start : BotState :=
        { last_sended_error_message := "", last_sended_status_message := "",
          timestamp := .int now }
      let (sf, evs) := runCycles envs start
      (.ok sf, evs)

/-! ### Observation functions over traces -/

/-- The `from_date` cursors of the API requests in a trace. -/
def apiRequests : List Event → List JVal
  | [] => []
  | .apiRequest t :: rest => t :: apiRequests rest
  | _ :: rest => apiRequests rest

/-- The messages of the Notifier invocations in a trace. -/
def sendMsgs : List Event → List String
  | [] => []
  | .sendAttempt m :: rest => m :: sendMsgs rest
  | _ :: rest => sendMsgs rest

/-- The number of sleeps in a trace. -/
def countSleeps : List Event → Nat
  | [] => 0
  | .sleep :: rest => countSleeps rest + 1
  | _ :: rest => countSleeps rest

/-- The status message an iteration with oracle `env` interprets, when its
cycle reaches `parse_status` successfully (state-independent observation
of lines 138–146). -/
def interpreted (env : CycleEnv) : Option String :=
  match get_api_answer env.http with
  | .error _ => none
  | .ok response =>
    match check_response response with
    | .error _ => none
    | .ok _ =>
      match jGetD response "homeworks" .null with
      | .list (homework :: _) =>
        match parse_status homework with
        | .ok m => some m
        | .error _ => none
      | _ => none

/-- The cursor value after a successful pass of line 153, as a function of
the cycle's HTTP outcome. -/
def cursorNext (env : CycleEnv) (ts : JVal) : JVal :=
  match get_api_answer env.http with
  | .ok response => jGetD response "current_date" ts
  | .error _ => ts

/-! ### Helper lemmas about traces and the loop body -/

@[simp]
theorem apiRequests_append (a b : List Event) :
    apiRequests (a ++ b) = apiRequests a ++ apiRequests b := by
  induction a with
  | nil => rfl
  | cons x rest ih => cases x <;> simp [apiRequests, ih]

@[simp]
theorem sendMsgs_append (a b : List Event) :
    sendMsgs (a ++ b) = sendMsgs a ++ sendMsgs b := by
  induction a with
  | nil => rfl
  | cons x rest ih => cases x <;> simp [sendMsgs, ih]

@[simp]
theorem countSleeps_append (a b : List Event) :
    countSleeps (a ++ b) = countSleeps a + countSleeps b := by
  induction a with
  | nil => simp [countSleeps]
  | cons x rest ih => cases x <;> (simp [countSleeps, ih]; try omega)

/-- The `try` block performs at most one Notifier invocation, and records
nothing else. -/
theorem tryBody_sends (env : CycleEnv) (s : BotState) :
    (tryBody env s).2 = [] ∨ ∃ m, (tryBody env s).2 = [Event.sendAttempt m] := by
  unfold tryBody
  repeat' split
  all_goals simp

/-- The `except` clauses perform at most one Notifier invocation. -/
theorem exceptBlock_sends (o : Option String) (e : PyError) (s : BotState) :
    (exceptBlock o e s).2 = [] ∨ ∃ m, (exceptBlock o e s).2 = [Event.sendAttempt m] := by
  unfold exceptBlock
  repeat' split
  all_goals simp

/-- Both `except` clauses of the loop catch their exception: no exception
of the program's taxonomy escapes an iteration. -/
theorem iteration_escaped_none (env : CycleEnv) (s : BotState) :
    (iteration env s).escaped = none := by
  unfold iteration
  repeat' split
  all_goals rfl

/-- Every iteration issues exactly one API request, with the entry cursor
as `from_date`. -/
theorem iteration_one_request (env : CycleEnv) (s : BotState) :
    apiRequests (iteration env s).events = [s.timestamp] := by
  rcases ht : tryBody env s with ⟨r, sends⟩
  have hs := tryBody_sends env s
  rw [ht] at hs
  unfold iteration
  rw [ht]
  rcases r with e | s1
  · have he := exceptBlock_sends env.sendError e s
    rcases hs with hs | ⟨m, hs⟩ <;> rcases he with he | ⟨m2, he⟩ <;>
      subst hs <;> simp [he, apiRequests]
  · rcases hs with hs | ⟨m, hs⟩ <;> subst hs <;> simp [apiRequests]

/-- Every iteration sleeps exactly once (the `finally` clause). -/
theorem iteration_one_sleep (env : CycleEnv) (s : BotState) :
    countSleeps (iteration env s).events = 1 := by
  rcases ht : tryBody env s with ⟨r, sends⟩
  have hs := tryBody_sends env s
  rw [ht] at hs
  unfold iteration
  rw [ht]
  rcases r with e | s1
  · have he := exceptBlock_sends env.sendError e s
    rcases hs with hs | ⟨m, hs⟩ <;> rcases he with he | ⟨m2, he⟩ <;>
      subst hs <;> simp [he, countSleeps]
  · rcases hs with hs | ⟨m, hs⟩ <;> subst hs <;> simp [countSleeps]

/-- Every iteration's last recorded action is the sleep. -/
theorem iteration_last_sleep (env : CycleEnv) (s : BotState) :
    (iteration env s).events.getLast? = some Event.sleep := by
  rcases ht : tryBody env s with ⟨r, sends⟩
  have hs := tryBody_sends env s
  rw [ht] at hs
  unfold iteration
  rw [ht]
  rcases r with e | s1
  · have he := exceptBlock_sends env.sendError e s
    rcases hs with hs | ⟨m, hs⟩ <;> rcases he with he | ⟨m2, he⟩ <;>
      subst hs <;> simp [he]
  · rcases hs with hs | ⟨m, hs⟩ <;> subst hs <;> rfl

/-- Characterisation of the `try` block on a cycle that reaches an
interpreted status message `m`: nothing is sent if `m` equals the dedup
string; otherwise delivery is attempted, and the dedup string and cursor
advance exactly when delivery does not raise. -/
theorem tryBody_of_interpreted (env : CycleEnv) (s : BotState) (m : String)
    (h : interpreted env = some m) :
    tryBody env s =
      if s.last_sended_status_message = m then
        (.ok { s with timestamp := cursorNext env s.timestamp }, [])
      else
        match env.sendStatus with
        | some terr => (.error (.apiTelegramError terr), [.sendAttempt m])
        | none =>
            (.ok { s with last_sended_status_message := m,
                          timestamp := cursorNext env s.timestamp },
             [.sendAttempt m]) := by
  unfold interpreted at h
  cases hapi : get_api_answer env.http with
  | error e => rw [hapi] at h; simp at h
  | ok response =>
    rw [hapi] at h
    dsimp only at h
    cases hchk : check_response response with
    | error e => rw [hchk] at h; simp at h
    | ok u =>
      rw [hchk] at h
      dsimp only at h
      cases hhw : jGetD response "homeworks" JVal.null with
      | list l =>
        cases l with
        | nil => rw [hhw] at h; simp at h
        | cons homework tl =>
          rw [hhw] at h
          dsimp only at h
          cases hps : parse_status homework with
          | error e => rw [hps] at h; simp at h
          | ok m1 =>
            rw [hps] at h
            simp only [Option.some.injEq] at h
            subst h
            simp only [tryBody, cursorNext, hapi, hchk, hhw, hps]
            by_cases hm : s.last_sended_status_message = m1 <;>
              cases hss : env.sendStatus <;> simp [hm, hss]
      | null => rw [hhw] at h; simp at h
      | bool b => rw [hhw] at h; simp at h
      | int n => rw [hhw] at h; simp at h
      | str s2 => rw [hhw] at h; simp at h
      | obj fs => rw [hhw] at h; simp at h

/-- Characterisation of a whole iteration on a cycle that reaches an
interpreted status message. -/
theorem iteration_of_interpreted (env : CycleEnv) (s : BotState) (m : String)
    (h : interpreted env = some m) :
    iteration env s =
      if s.last_sended_status_message = m then
        { escaped := none,
          state := { s with timestamp := cursorNext env s.timestamp },
          events := [.apiRequest s.timestamp, .sleep] }
      else
        match env.sendStatus with
        | some _ =>
            { escaped := none, state := s,
              events := [.apiRequest s.timestamp, .sendAttempt m, .sleep] }
        | none =>
            { escaped := none,
              state := { s with last_sended_status_message := m,
                                timestamp := cursorNext env s.timestamp },
              events := [.apiRequest s.timestamp, .sendAttempt m, .sleep] } := by
  have ht := tryBody_of_interpreted env s m h
  unfold iteration
  rw [ht]
  by_cases hm : s.last_sended_status_message = m <;>
    cases hss : env.sendStatus <;> simp [hm, hss, exceptBlock]

/-- Unfolding one cycle of `runCycles` (no exception escapes, so the run
never stops early). -/
theorem runCycles_cons (env : CycleEnv) (rest : List CycleEnv) (s : BotState) :
    runCycles (env :: rest) s =
      ((runCycles rest (iteration env s).state).1,
       (iteration env s).events ++ (runCycles rest (iteration env s).state).2) := by
  conv_lhs => rw [runCycles]
  simp [iteration_escaped_none]

/-- `check_response` succeeds exactly on a dict whose `homeworks` value is
a list (the forward direction). -/
theorem check_response_ok_shape (v : JVal) (u : Unit)
    (h : check_response v = .ok u) :
    ∃ fields l, v = .obj fields ∧ jLookup fields "homeworks" = some (.list l) := by
  cases v with
  | obj fields =>
    unfold check_response at h
    dsimp only at h
    cases hl : jLookup fields "homeworks" with
    | none => rw [hl] at h; simp at h
    | some hw =>
      rw [hl] at h
      dsimp only at h
      cases hw with
      | list l => exact ⟨fields, l, rfl, hl⟩
      | null => simp [jIsList] at h
      | bool b => simp [jIsList] at h
      | int n => simp [jIsList] at h
      | str s2 => simp [jIsList] at h
      | obj fs => simp [jIsList] at h
  | null => simp [check_response] at h
  | bool b => simp [check_response] at h
  | int n => simp [check_response] at h
  | str s2 => simp [check_response] at h
  | list l => simp [check_response] at h

/-- When the `try` block completes, the cursor has passed through line 153:
it equals `current_date` from the body when present, else is unchanged. -/
theorem tryBody_ok_cursor (env : CycleEnv) (s s1 : BotState) (sends : List Event)
    (code : Int) (body : JVal) (hh : env.http = .response code body)
    (h : tryBody env s = (.ok s1, sends)) :
    s1.timestamp = jGetD body "current_date" s.timestamp := by
  unfold tryBody at h
  rw [hh] at h
  unfold get_api_answer at h
  dsimp only at h
  by_cases hc : code = 200
  · rw [if_neg (by simp [hc])] at h
    dsimp only at h
    cases hchk : check_response body with
    | error e => rw [hchk] at h; simp at h
    | ok u =>
      rw [hchk] at h
      dsimp only at h
      cases hhw : jGetD body "homeworks" JVal.null with
      | list l =>
        cases l with
        | nil =>
          rw [hhw] at h
          simp only [Prod.mk.injEq, Except.ok.injEq] at h
          rw [← h.1]
        | cons homework tl =>
          rw [hhw] at h
          dsimp only at h
          cases hps : parse_status homework with
          | error e => rw [hps] at h; simp at h
          | ok m1 =>
            rw [hps] at h
            dsimp only at h
            by_cases hm : s.last_sended_status_message = m1
            · rw [if_neg (by simp [hm])] at h
              simp only [Prod.mk.injEq, Except.ok.injEq] at h
              rw [← h.1]
            · rw [if_pos (by simp [hm])] at h
              cases hss : env.sendStatus with
              | some terr => rw [hss] at h; simp at h
              | none =>
                rw [hss] at h
                simp only [Prod.mk.injEq, Except.ok.injEq] at h
                rw [← h.1]
      | null => rw [hhw] at h; simp only [Prod.mk.injEq, Except.ok.injEq] at h; rw [← h.1]
      | bool b => rw [hhw] at h; simp only [Prod.mk.injEq, Except.ok.injEq] at h; rw [← h.1]
      | int n => rw [hhw] at h; simp only [Prod.mk.injEq, Except.ok.injEq] at h; rw [← h.1]
      | str s2 => rw [hhw] at h; simp only [Prod.mk.injEq, Except.ok.injEq] at h; rw [← h.1]
      | obj fs => rw [hhw] at h; simp only [Prod.mk.injEq, Except.ok.injEq] at h; rw [← h.1]
  · rw [if_pos (by simp [hc])] at h
    simp at h

/-- Python `key in dict` agrees with association-list lookup. -/
theorem any_key_iff_lookup {α : Type} (fields : List (String × α)) (k : String) :
    fields.any (fun p => p.1 == k) = true ↔ ∃ v, jLookup fields k = some v := by
  induction fields with
  | nil => simp [jLookup]
  | cons p rest ih =>
    cases p with
    | mk k2 v2 =>
      by_cases hk : k2 == k
      · simp [jLookup, hk]
      · simp only [List.any_cons, jLookup, hk, Bool.or_eq_true, if_neg]
        simp [ih, hk]


/-- If a string has no characters it is the empty string. -/
theorem string_append_ne_empty (a b : String) (ha : a ≠ "") : a ++ b ≠ "" := by
  intro h
  apply ha
  have h2 := congrArg String.length h
  rw [String.length_append] at h2
  have h0 : a.length = 0 := by
    have : ("" : String).length = 0 := rfl
    omega
  cases a with
  | mk data =>
    cases data with
    | nil => rfl
    | cons c cs => simp [String.length, List.length] at h0

/-! ### Concrete fixtures for witnesses and counterexamples -/

def hw1 : JVal := .obj [("homework_name", .str "hw1"), ("status", .str "approved")]

def body1 : JVal :=
  .obj [("homeworks", .list [hw1]), ("current_date", .int 1700000100)]

def msg1 : String :=
  "Изменился статус проверки работы \"hw1\". Работа проверена: ревьюеру всё понравилось. Ура!"

def hw2 : JVal := .obj [("homework_name", .str "hw1"), ("status", .str "reviewing")]

def body2 : JVal :=
  .obj [("homeworks", .list [hw2]), ("current_date", .int 1700000200)]

def msg2 : String :=
  "Изменился статус проверки работы \"hw1\". Работа взята на проверку ревьюером."

/-- The orchestrator state at loop entry (lines 126–127, 132) with `now = 0`. -/
def s0 : BotState :=
  { last_sended_error_message := "", last_sended_status_message := "", timestamp := .int 0 }

def envOkA : CycleEnv := { http := .response 200 body1, sendStatus := none, sendError := none }

def envOkB : CycleEnv := { http := .response 200 body2, sendStatus := none, sendError := none }

/-- A cycle whose status delivery raises `ApiTelegramException`. -/
def envTgFail : CycleEnv :=
  { http := .response 200 body1, sendStatus := some "Bad Request: chat not found",
    sendError := none }

/-- The state after one successful `envOkA` cycle from `s0`. -/
def s1A : BotState :=
  { last_sended_error_message := "", last_sended_status_message := msg1,
    timestamp := .int 1700000100 }

/-! ### Claims -/

/-- C3: once the poll loop has started, no error arising inside an iteration
terminates it — every exception of the program's taxonomy is absorbed by the
`except` clauses, every iteration ends with the unconditional sleep, and a
run over any number of cycle oracles performs all of them (one sleep per
cycle), so the loop only stops from outside the modelled program. -/
theorem C3_loop_never_terminates :
    (∀ env s, (iteration env s).escaped = none
       ∧ (iteration env s).events.getLast? = some Event.sleep)
    ∧ ∀ envs s, countSleeps (runCycles envs s).2 = envs.length := by
  constructor
  · exact fun env s => ⟨iteration_escaped_none env s, iteration_last_sleep env s⟩
  · intro envs
    induction envs with
    | nil => intro s; rfl
    | cons e rest ih =>
      intro s
      rw [runCycles_cons]
      simp [iteration_one_sleep, ih]
      omega

/-- C5 (amended): the API client issues exactly one request per cycle with
no internal retry; a transport-level failure raises an error carrying the
underlying cause that propagates out of the `try` block; a non-success HTTP
status raises a distinct error (`ValueError`) with a fixed message that
propagates out of the `try` block — but that error does not carry the
status code. -/
theorem C5_api_client_contract :
    (∀ env s, apiRequests (iteration env s).events = [s.timestamp])
    ∧ (∀ cause, get_api_answer (.transportFail cause) =
          .error (.requestError
            ("Ошибка при запросе к API: " ++ cause ++ ". (from get_api_answer)") cause)
        ∧ ∀ e, get_api_answer (.transportFail cause) = .error e → pyCause e = some cause)
    ∧ (∀ env s cause, env.http = .transportFail cause →
        (tryBody env s).1 = .error (.requestError
          ("Ошибка при запросе к API: " ++ cause ++ ". (from get_api_answer)") cause))
    ∧ (∀ code body, code ≠ 200 → get_api_answer (.response code body) =
        .error (.valueError "HTTP ошибка при запросе к эндпоинту API. (from get_api_answer)"))
    ∧ (∀ env s code body, env.http = .response code body → code ≠ 200 →
        (tryBody env s).1 =
          .error (.valueError "HTTP ошибка при запросе к эндпоинту API. (from get_api_answer)")) := by
  refine ⟨iteration_one_request, ?_, ?_, ?_, ?_⟩
  · intro cause
    refine ⟨rfl, ?_⟩
    intro e he
    simp only [get_api_answer, Except.error.injEq] at he
    rw [← he]
    rfl
  · intro env s cause hh
    unfold tryBody
    rw [hh]
    rfl
  · intro code body hc
    unfold get_api_answer
    dsimp only
    rw [if_pos hc]
  · intro env s code body hh hc
    unfold tryBody
    rw [hh]
    unfold get_api_answer
    dsimp only
    rw [if_pos hc]

/-- C5 counterexample: contrary to the claim, the error raised on a
non-success HTTP status does not carry the status code — two different
failing codes yield identical exceptions (a `ValueError` with a fixed
message and no cause). -/
theorem C5_counterexample_http_error_lacks_code :
    get_api_answer (.response 404 JVal.null) = get_api_answer (.response 500 JVal.null)
    ∧ get_api_answer (.response 404 JVal.null) =
        .error (.valueError "HTTP ошибка при запросе к эндпоинту API. (from get_api_answer)")
    ∧ pyCause (.valueError "HTTP ошибка при запросе к эндпоинту API. (from get_api_answer)")
        = none := ⟨rfl, rfl, rfl⟩

/-- Witness for C5 at concrete inputs. -/
theorem C5_witness :
    (tryBody { http := .transportFail "ConnectionError", sendStatus := none,
               sendError := none } s0).1 =
      .error (.requestError
        ("Ошибка при запросе к API: " ++ "ConnectionError" ++ ". (from get_api_answer)")
        "ConnectionError")
    ∧ get_api_answer (.response 404 JVal.null) =
        .error (.valueError "HTTP ошибка при запросе к эндпоинту API. (from get_api_answer)")
    ∧ apiRequests (iteration envOkA s0).events = [JVal.int 0] := by
  refine ⟨?_, ?_, ?_⟩
  · exact C5_api_client_contract.2.2.1 _ s0 "ConnectionError" rfl
  · exact C5_api_client_contract.2.2.2.1 404 JVal.null (by decide)
  · exact C5_api_client_contract.1 envOkA s0

/-- C2: when the `try` block of an iteration completes, the new cursor is
the response's `current_date` when that key is present and the old cursor
otherwise, and the next iteration's single API request is issued with
exactly the new cursor as `from_date`. -/
theorem C2_cursor_advancement :
    ∀ env s s1 sends code body, env.http = .response code body →
      tryBody env s = (.ok s1, sends) →
      (iteration env s).state = s1
      ∧ (∀ fields cd, body = .obj fields →
           jLookup fields "current_date" = some cd → s1.timestamp = cd)
      ∧ (∀ fields, body = .obj fields →
           jLookup fields "current_date" = none → s1.timestamp = s.timestamp)
      ∧ ∀ env2, apiRequests (iteration env2 s1).events = [s1.timestamp] := by
  intro env s s1 sends code body hh ht
  have hcur := tryBody_ok_cursor env s s1 sends code body hh ht
  refine ⟨?_, ?_, ?_, fun env2 => iteration_one_request env2 s1⟩
  · unfold iteration
    rw [ht]
  · intro fields cd hb hcd
    rw [hcur, hb]
    simp [jGetD, hcd]
  · intro fields hb hcd
    rw [hcur, hb]
    simp [jGetD, hcd]

/-- Witness for C2 at a concrete response carrying
`current_date = 1700000100`. -/
theorem C2_witness :
    (iteration envOkA s0).state = s1A ∧ s1A.timestamp = JVal.int 1700000100 := by
  have h := C2_cursor_advancement envOkA s0 s1A [Event.sendAttempt msg1] 200 body1 rfl rfl
  exact ⟨h.1,
    h.2.1 [("homeworks", .list [hw1]), ("current_date", .int 1700000100)]
      (.int 1700000100) rfl rfl⟩

/-- The Notifier invocations of an iteration that interprets message `m`:
none when `m` equals the dedup string, exactly one otherwise (whether or
not the delivery raises). -/
theorem iteration_sendMsgs (env : CycleEnv) (s : BotState) (m : String)
    (h : interpreted env = some m) :
    sendMsgs (iteration env s).events =
      if s.last_sended_status_message = m then [] else [m] := by
  rw [iteration_of_interpreted env s m h]
  by_cases hm : s.last_sended_status_message = m <;>
    cases hss : env.sendStatus <;> simp [hm, hss, sendMsgs]

/-- After a successful fresh-status delivery the dedup string holds the
message and the cursor has advanced. -/
theorem iteration_state_of_send_ok (env : CycleEnv) (s : BotState) (m : String)
    (h : interpreted env = some m) (hm : s.last_sended_status_message ≠ m)
    (hs : env.sendStatus = none) :
    (iteration env s).state =
      { s with last_sended_status_message := m,
               timestamp := cursorNext env s.timestamp } := by
  rw [iteration_of_interpreted env s m h]
  simp [hm, hs]

/-- A fresh-status delivery that raises `ApiTelegramException` leaves the
whole orchestrator state untouched. -/
theorem iteration_state_of_send_fail (env : CycleEnv) (s : BotState) (m t : String)
    (h : interpreted env = some m) (hm : s.last_sended_status_message ≠ m)
    (hs : env.sendStatus = some t) :
    (iteration env s).state = s := by
  rw [iteration_of_interpreted env s m h]
  simp [hm, hs]

/-- C1: the orchestrator invokes the Notifier for an interpreted status
message exactly when it differs from the dedup string; hence two
consecutive iterations interpreting the same fresh message invoke the
Notifier once across both, and two consecutive iterations interpreting
different fresh messages invoke it once each. -/
theorem C1_dedup_behavior :
    (∀ env s m, interpreted env = some m →
       sendMsgs (iteration env s).events =
         if s.last_sended_status_message = m then [] else [m])
    ∧ (∀ e1 e2 s m, interpreted e1 = some m → interpreted e2 = some m →
         s.last_sended_status_message ≠ m → e1.sendStatus = none →
         sendMsgs (runCycles [e1, e2] s).2 = [m])
    ∧ (∀ e1 e2 s m1 m2, interpreted e1 = some m1 → interpreted e2 = some m2 →
         m1 ≠ m2 → s.last_sended_status_message ≠ m1 → e1.sendStatus = none →
         sendMsgs (runCycles [e1, e2] s).2 = [m1, m2]) := by
  refine ⟨iteration_sendMsgs, ?_, ?_⟩
  · intro e1 e2 s m h1 h2 hm hsend
    rw [runCycles_cons, runCycles_cons]
    simp only [runCycles, sendMsgs_append, List.append_nil]
    rw [iteration_state_of_send_ok e1 s m h1 hm hsend,
        iteration_sendMsgs e1 s m h1,
        iteration_sendMsgs e2 _ m h2]
    simp [hm, sendMsgs]
  · intro e1 e2 s m1 m2 h1 h2 hne hm hsend
    rw [runCycles_cons, runCycles_cons]
    simp only [runCycles, sendMsgs_append, List.append_nil]
    rw [iteration_state_of_send_ok e1 s m1 h1 hm hsend,
        iteration_sendMsgs e1 s m1 h1,
        iteration_sendMsgs e2 _ m2 h2]
    simp [hm, hne, sendMsgs]

/-- Witness for C1: an identical message across two cycles is delivered
once; two different messages are delivered once each. -/
theorem C1_witness :
    sendMsgs (runCycles [envOkA, envOkA] s0).2 = [msg1]
    ∧ sendMsgs (runCycles [envOkA, envOkB] s0).2 = [msg1, msg2] := by
  constructor
  · exact C1_dedup_behavior.2.1 envOkA envOkA s0 msg1 rfl rfl (by decide) rfl
  · exact C1_dedup_behavior.2.2 envOkA envOkB s0 msg1 msg2 rfl rfl (by decide)
      (by decide) rfl

/-- C10: when delivery of a fresh status notification raises a Telegram API
error, the iteration leaves the orchestrator state exactly as it was — the
dedup string and the cursor keep their previous values — so the next cycle
re-queries with the same `from_date` and, if it interprets the same
message, attempts delivery again. -/
theorem C10_delivery_failure_leaves_state :
    ∀ env s m t, interpreted env = some m →
      s.last_sended_status_message ≠ m → env.sendStatus = some t →
      (iteration env s).state = s
      ∧ sendMsgs (iteration env s).events = [m]
      ∧ (∀ env2, apiRequests (iteration env2 (iteration env s).state).events
           = [s.timestamp])
      ∧ (∀ env2, interpreted env2 = some m →
           sendMsgs (iteration env2 (iteration env s).state).events = [m]) := by
  intro env s m t h hm hs
  have hstate := iteration_state_of_send_fail env s m t h hm hs
  refine ⟨hstate, ?_, ?_, ?_⟩
  · rw [iteration_sendMsgs env s m h]
    simp [hm]
  · intro env2
    rw [hstate]
    exact iteration_one_request env2 s
  · intro env2 h2
    rw [hstate, iteration_sendMsgs env2 s m h2]
    simp [hm]

/-- Witness for C10 at a concrete failing delivery. -/
theorem C10_witness :
    (iteration envTgFail s0).state = s0
    ∧ sendMsgs (iteration envTgFail s0).events = [msg1]
    ∧ sendMsgs (iteration envTgFail (iteration envTgFail s0).state).events = [msg1] := by
  have h := C10_delivery_failure_leaves_state envTgFail s0 msg1
    "Bad Request: chat not found" rfl (by decide) rfl
  exact ⟨h.1, h.2.1, h.2.2.2 envTgFail rfl⟩

/-- C4 counterexample: an iteration in which delivery of the status message
is attempted but raises leaves the dedup string at its old value — the
claim that dedup state is updated after every delivery attempt regardless
of success is false. -/
theorem C4_counterexample_dedup_not_updated_on_failure :
    sendMsgs (iteration envTgFail s0).events = [msg1]
    ∧ (iteration envTgFail s0).state.last_sended_status_message = ""
    ∧ msg1 ≠ "" := by
  refine ⟨?_, ?_, by decide⟩ <;> rfl

/-- C4 (amended): the dedup-state string (status or error) is updated to
the attempted message only when the delivery succeeds; when `send_message`
raises, the string keeps its previous value, so the identical message is
retried on a later cycle rather than suppressed. -/
theorem C4_dedup_updated_only_on_success :
    (∀ env s m, interpreted env = some m → s.last_sended_status_message ≠ m →
       (env.sendStatus = none →
          (iteration env s).state.last_sended_status_message = m)
       ∧ ∀ t, env.sendStatus = some t → (iteration env s).state = s)
    ∧ (∀ env s e sends, tryBody env s = (.error e, sends) →
         (iteration env s).state = (exceptBlock env.sendError e s).1)
    ∧ (∀ o e s, (∀ t, e ≠ PyError.apiTelegramError t) →
         s.last_sended_error_message ≠ errMessage e →
         (o = none → (exceptBlock o e s).1.last_sended_error_message = errMessage e)
         ∧ (∀ t, o = some t → (exceptBlock o e s).1 = s)
         ∧ sendMsgs (exceptBlock o e s).2 = [errMessage e]) := by
  refine ⟨?_, ?_, ?_⟩
  · intro env s m h hm
    constructor
    · intro hs
      rw [iteration_state_of_send_ok env s m h hm hs]
    · intro t hs
      exact iteration_state_of_send_fail env s m t h hm hs
  · intro env s e sends ht
    unfold iteration
    rw [ht]
  · intro o e s htel hm
    cases e with
    | apiTelegramError t => exact absurd rfl (htel t)
    | tokenError m =>
        refine ⟨?_, ?_, ?_⟩ <;> cases o <;> simp_all [exceptBlock, sendMsgs]
    | requestError m c =>
        refine ⟨?_, ?_, ?_⟩ <;> cases o <;> simp_all [exceptBlock, sendMsgs]
    | valueError m =>
        refine ⟨?_, ?_, ?_⟩ <;> cases o <;> simp_all [exceptBlock, sendMsgs]
    | typeError m =>
        refine ⟨?_, ?_, ?_⟩ <;> cases o <;> simp_all [exceptBlock, sendMsgs]
    | keyError m =>
        refine ⟨?_, ?_, ?_⟩ <;> cases o <;> simp_all [exceptBlock, sendMsgs]

/-- Witness for C4 (amended) on concrete success and failure cycles. -/
theorem C4_witness :
    (iteration envOkA s0).state.last_sended_status_message = msg1
    ∧ (iteration envTgFail s0).state = s0
    ∧ (exceptBlock none (.valueError "boom") s0).1.last_sended_error_message =
        errMessage (.valueError "boom") := by
  refine ⟨?_, ?_, ?_⟩
  · exact (C4_dedup_updated_only_on_success.1 envOkA s0 msg1 rfl (by decide)).1 rfl
  · exact (C4_dedup_updated_only_on_success.1 envTgFail s0 msg1 rfl (by decide)).2
      "Bad Request: chat not found" rfl
  · exact ((C4_dedup_updated_only_on_success.2.2 none (.valueError "boom") s0
      (fun t h => PyError.noConfusion h) (by decide)).1) rfl

/-- `parse_status` on a record with both keys and a known status formats
the message from the template and the Verdict Table. -/
theorem parse_status_format (fields : List (String × JVal)) (nv : JVal) (st v : String)
    (hn : jLookup fields "homework_name" = some nv)
    (hs : jLookup fields "status" = some (.str st))
    (hv : jLookup HOMEWORK_VERDICTS st = some v) :
    parse_status (.obj fields) =
      .ok ("Изменился статус проверки работы \"" ++ pyFStr nv ++ "\". " ++ v) := by
  have h1 : fields.any (fun p => p.1 == "homework_name") = true :=
    (any_key_iff_lookup fields "homework_name").2 ⟨_, hn⟩
  have h2 : fields.any (fun p => p.1 == "status") = true :=
    (any_key_iff_lookup fields "status").2 ⟨_, hs⟩
  simp [parse_status, List.filter_cons, h1, h2, hn, hs, hv]

/-- `parse_status` on a record missing `homework_name` and/or `status`
raises `KeyError` listing exactly the missing keys, in source order. -/
theorem parse_status_missing (fields : List (String × JVal))
    (b1 b2 : Bool)
    (h1 : fields.any (fun p => p.1 == "homework_name") = b1)
    (h2 : fields.any (fun p => p.1 == "status") = b2)
    (hne : b1 = false ∨ b2 = false) :
    parse_status (.obj fields) = .error (.keyError
      ("Отсутствуют ожидаемые ключи в объекте ДЗ: " ++
       String.intercalate ", "
         ((if b1 then [] else ["homework_name"]) ++ (if b2 then [] else ["status"])) ++
       ". (from parse_status)")) := by
  cases b1 <;> cases b2
  · simp [parse_status, List.filter_cons, h1, h2]
  · simp [parse_status, List.filter_cons, h1, h2]
  · simp [parse_status, List.filter_cons, h1, h2]
  · rcases hne with h | h <;> exact absurd h (by simp)


/-- `parse_status` on a key-complete record with an unknown string status
raises `ValueError` naming the offending value. -/
theorem parse_status_unknown (fields : List (String × JVal)) (st : String)
    (h1 : fields.any (fun p => p.1 == "homework_name") = true)
    (hs : jLookup fields "status" = some (.str st))
    (hv : jLookup HOMEWORK_VERDICTS st = none) :
    parse_status (.obj fields) = .error (.valueError
      ("Неожиданный статус домашней работы: " ++ st ++ ". (from parse_status)")) := by
  have h2 := (any_key_iff_lookup fields "status").2 ⟨_, hs⟩
  simp [parse_status, List.filter_cons, h1, h2, hs, hv]

/-- `parse_status` succeeds exactly on records having a `homework_name`
and a string `status` present in the Verdict Table. -/
theorem parse_status_ok_iff (fields : List (String × JVal)) :
    (∃ m, parse_status (.obj fields) = .ok m) ↔
      ((∃ nv, jLookup fields "homework_name" = some nv)
       ∧ ∃ st v, jLookup fields "status" = some (.str st)
           ∧ jLookup HOMEWORK_VERDICTS st = some v) := by
  constructor
  · rintro ⟨m, h⟩
    by_cases h1 : fields.any (fun p => p.1 == "homework_name") = true
    · by_cases h2 : fields.any (fun p => p.1 == "status") = true
      · obtain ⟨nv, hn⟩ := (any_key_iff_lookup fields "homework_name").1 h1
        obtain ⟨sv, hsv⟩ := (any_key_iff_lookup fields "status").1 h2
        refine ⟨⟨nv, hn⟩, ?_⟩
        cases sv with
        | str st =>
          cases hvd : jLookup HOMEWORK_VERDICTS st with
          | some v => exact ⟨st, v, hsv, hvd⟩
          | none =>
            rw [parse_status_unknown fields st h1 hsv hvd] at h
            simp at h
        | null => simp [parse_status, List.filter_cons, h1, h2, hsv] at h
        | bool b => simp [parse_status, List.filter_cons, h1, h2, hsv] at h
        | int n => simp [parse_status, List.filter_cons, h1, h2, hsv] at h
        | list l => simp [parse_status, List.filter_cons, h1, h2, hsv] at h
        | obj fs => simp [parse_status, List.filter_cons, h1, h2, hsv] at h
      · have h2f : fields.any (fun p => p.1 == "status") = false :=
          Bool.eq_false_iff.mpr h2
        rw [parse_status_missing fields true false h1 h2f (Or.inr rfl)] at h
        simp at h
    · have h1f : fields.any (fun p => p.1 == "homework_name") = false :=
          Bool.eq_false_iff.mpr h1
      rw [parse_status_missing fields false (fields.any (fun p => p.1 == "status"))
        h1f rfl (Or.inl rfl)] at h
      simp at h
  · rintro ⟨⟨nv, hn⟩, st, v, hs, hv⟩
    exact ⟨_, parse_status_format fields nv st v hn hs hv⟩


/-- C6: for a record with `homework_name` and one of the three known status
values, the Status Interpreter returns exactly
`Изменился статус проверки работы "{name}". {verdict}` with the verdict
text fixed by `HOMEWORK_VERDICTS`; the result contains the homework name
(as the explicit middle of the concatenation) and is non-empty. -/
theorem C6_verdict_formatting :
    ∀ (fields : List (String × JVal)) (name st : String),
      jLookup fields "homework_name" = some (.str name) →
      jLookup fields "status" = some (.str st) →
      (st = "approved" → parse_status (.obj fields) =
         .ok ("Изменился статус проверки работы \"" ++ name ++ "\". " ++
              "Работа проверена: ревьюеру всё понравилось. Ура!"))
      ∧ (st = "reviewing" → parse_status (.obj fields) =
         .ok ("Изменился статус проверки работы \"" ++ name ++ "\". " ++
              "Работа взята на проверку ревьюером."))
      ∧ (st = "rejected" → parse_status (.obj fields) =
         .ok ("Изменился статус проверки работы \"" ++ name ++ "\". " ++
              "Работа проверена: у ревьюера есть замечания."))
      ∧ ∀ v, jLookup HOMEWORK_VERDICTS st = some v →
          parse_status (.obj fields) =
            .ok ("Изменился статус проверки работы \"" ++ name ++ "\". " ++ v)
          ∧ ("Изменился статус проверки работы \"" ++ name ++ "\". " ++ v) ≠ "" := by
  intro fields name st hn hs
  have format : ∀ v, jLookup HOMEWORK_VERDICTS st = some v →
      parse_status (.obj fields) =
        .ok ("Изменился статус проверки работы \"" ++ name ++ "\". " ++ v) := by
    intro v hv
    have h := parse_status_format fields (.str name) st v hn hs hv
    simpa [pyFStr] using h
  refine ⟨?_, ?_, ?_, ?_⟩
  · intro hst; subst hst; exact format _ rfl
  · intro hst; subst hst; exact format _ rfl
  · intro hst; subst hst; exact format _ rfl
  · intro v hv
    refine ⟨format v hv, ?_⟩
    exact string_append_ne_empty _ v
      (string_append_ne_empty _ _ (string_append_ne_empty _ _ (by decide)))

/-- Witness for C6: the end-to-end record of the spec. -/
theorem C6_witness :
    parse_status hw1 =
      .ok ("Изменился статус проверки работы \"" ++ "hw1" ++ "\". " ++
           "Работа проверена: ревьюеру всё понравилось. Ура!") :=
  (C6_verdict_formatting [("homework_name", .str "hw1"), ("status", .str "approved")]
    "hw1" "approved" rfl rfl).1 rfl

/-- C7: the Status Interpreter raises `KeyError` listing every missing key
when `homework_name` and/or `status` is absent, raises `ValueError` naming
the offending value when `status` is present but unknown, and succeeds in
exactly the remaining cases (both keys present, status in the table). -/
theorem C7_record_errors :
    (∀ fields : List (String × JVal),
       fields.any (fun p => p.1 == "homework_name") = false →
       fields.any (fun p => p.1 == "status") = true →
       parse_status (.obj fields) = .error (.keyError
         ("Отсутствуют ожидаемые ключи в объекте ДЗ: " ++
          String.intercalate ", " ["homework_name"] ++ ". (from parse_status)")))
    ∧ (∀ fields : List (String × JVal),
       fields.any (fun p => p.1 == "homework_name") = true →
       fields.any (fun p => p.1 == "status") = false →
       parse_status (.obj fields) = .error (.keyError
         ("Отсутствуют ожидаемые ключи в объекте ДЗ: " ++
          String.intercalate ", " ["status"] ++ ". (from parse_status)")))
    ∧ (∀ fields : List (String × JVal),
       fields.any (fun p => p.1 == "homework_name") = false →
       fields.any (fun p => p.1 == "status") = false →
       parse_status (.obj fields) = .error (.keyError
         ("Отсутствуют ожидаемые ключи в объекте ДЗ: " ++
          String.intercalate ", " ["homework_name", "status"] ++ ". (from parse_status)")))
    ∧ (∀ (fields : List (String × JVal)) (st : String),
       fields.any (fun p => p.1 == "homework_name") = true →
       jLookup fields "status" = some (.str st) →
       jLookup HOMEWORK_VERDICTS st = none →
       parse_status (.obj fields) = .error (.valueError
         ("Неожиданный статус домашней работы: " ++ st ++ ". (from parse_status)")))
    ∧ ∀ fields : List (String × JVal),
        (∃ m, parse_status (.obj fields) = .ok m) ↔
          ((∃ nv, jLookup fields "homework_name" = some nv)
           ∧ ∃ st v, jLookup fields "status" = some (.str st)
               ∧ jLookup HOMEWORK_VERDICTS st = some v) := by
  refine ⟨?_, ?_, ?_, parse_status_unknown, parse_status_ok_iff⟩
  · intro fields h1 h2
    have h := parse_status_missing fields false true h1 h2 (Or.inl rfl)
    simpa using h
  · intro fields h1 h2
    have h := parse_status_missing fields true false h1 h2 (Or.inr rfl)
    simpa using h
  · intro fields h1 h2
    have h := parse_status_missing fields false false h1 h2 (Or.inl rfl)
    simpa using h

/-- Witness for C7: a record missing `homework_name`, and the spec's
`in_review` unknown-status record. -/
theorem C7_witness :
    parse_status (.obj [("status", .str "approved")]) = .error (.keyError
      ("Отсутствуют ожидаемые ключи в объекте ДЗ: " ++
       String.intercalate ", " ["homework_name"] ++ ". (from parse_status)"))
    ∧ parse_status (.obj [("homework_name", .str "hw1"), ("status", .str "in_review")]) =
        .error (.valueError
          ("Неожиданный статус домашней работы: " ++ "in_review" ++ ". (from parse_status)")) := by
  constructor
  · exact C7_record_errors.1 [("status", .str "approved")] rfl rfl
  · exact C7_record_errors.2.2.2.1 [("homework_name", .str "hw1"), ("status", .str "in_review")]
      "in_review" rfl rfl rfl

/-- C8: the Response Validator raises `TypeError` naming the actual type on
a non-mapping body, `KeyError` naming `homeworks` when that key is absent
(in particular on the empty mapping), `TypeError` naming the actual and
expected types when the `homeworks` value is not a list; and it returns
`()` exactly on bodies passing all three checks (being a pure function of
its argument, it leaves the input unmodified). -/
theorem C8_response_validation :
    (∀ v, jIsObj v = false → check_response v = .error (.typeError
        ("Тип ответа API " ++ pyTypeStr v ++ ". Ожидаемый - словарь. (from check_response)")))
    ∧ (∀ fields : List (String × JVal), jLookup fields "homeworks" = none →
        check_response (.obj fields) = .error (.keyError
          "В ответе API отсутствует ожидаемый ключ: homeworks. (from check_response)"))
    ∧ (∀ (fields : List (String × JVal)) (hv : JVal),
        jLookup fields "homeworks" = some hv → jIsList hv = false →
        check_response (.obj fields) = .error (.typeError
          ("Под ключем homeworks получен " ++ pyTypeStr hv ++
           ". Ожидаемый тип - список. (from check_response)")))
    ∧ ∀ v, check_response v = .ok () ↔
        ∃ fields l, v = .obj fields ∧ jLookup fields "homeworks" = some (.list l) := by
  refine ⟨?_, ?_, ?_, ?_⟩
  · intro v hv
    cases v with
    | obj fields => simp [jIsObj] at hv
    | null => rfl
    | bool b => rfl
    | int n => rfl
    | str s2 => rfl
    | list l => rfl
  · intro fields hl
    simp [check_response, hl]
  · intro fields hv hl hnl
    simp [check_response, hl, hnl]
  · intro v
    constructor
    · exact check_response_ok_shape v ()
    · rintro ⟨fields, l, rfl, hl⟩
      simp [check_response, hl, jIsList]

/-- Witness for C8: the spec's `\x7b\x7d` and `homeworks = "not-a-list"`
bodies, plus a passing body. -/
theorem C8_witness :
    check_response (.obj []) = .error (.keyError
      "В ответе API отсутствует ожидаемый ключ: homeworks. (from check_response)")
    ∧ check_response (.obj [("homeworks", .str "not-a-list")]) = .error (.typeError
        ("Под ключем homeworks получен " ++ pyTypeStr (.str "not-a-list") ++
         ". Ожидаемый тип - список. (from check_response)"))
    ∧ check_response body1 = .ok ()
    ∧ check_response (.str "oops") = .error (.typeError
        ("Тип ответа API " ++ pyTypeStr (.str "oops") ++
         ". Ожидаемый - словарь. (from check_response)")) := by
  refine ⟨?_, ?_, ?_, ?_⟩
  · exact C8_response_validation.2.1 [] rfl
  · exact C8_response_validation.2.2.1 [("homeworks", .str "not-a-list")]
      (.str "not-a-list") rfl rfl
  · exact (C8_response_validation.2.2.2 body1).2
      ⟨[("homeworks", .list [hw1]), ("current_date", .int 1700000100)], [hw1], rfl, rfl⟩
  · exact C8_response_validation.1 (.str "oops") rfl

/-- C9: the Configuration Guard succeeds exactly when all three credentials
are present and non-empty; otherwise it raises a `TokenError` whose message
names every missing credential (not just the first), and on that failure
`main` stops before the loop — no cycle runs and the API client is never
invoked. -/
theorem C9_config_guard :
    (∀ p t c, check_tokens p t c = .ok () ↔
       (pyTruthyStr p = true ∧ pyTruthyStr t = true ∧ pyTruthyStr c = true))
    ∧ (∀ p t c, (pyTruthyStr p = false ∨ pyTruthyStr t = false ∨ pyTruthyStr c = false) →
        check_tokens p t c = .error (.tokenError ("Отсутствуют данные: " ++
          String.intercalate ", "
            ((if pyTruthyStr p then [] else ["PRACTICUM_TOKEN"]) ++
             (if pyTruthyStr t then [] else ["TELEGRAM_TOKEN"]) ++
             (if pyTruthyStr c then [] else ["TELEGRAM_CHAT_ID"])))))
    ∧ ∀ p t c e now envs, check_tokens p t c = .error e →
        mainRun p t c now envs = (.error e, [])
        ∧ apiRequests (mainRun p t c now envs).2 = [] := by
  refine ⟨?_, ?_, ?_⟩
  · intro p t c
    by_cases hp : pyTruthyStr p <;> by_cases ht2 : pyTruthyStr t <;>
      by_cases hc : pyTruthyStr c <;>
      simp [check_tokens, List.filter_cons, hp, ht2, hc]
  · intro p t c hmiss
    by_cases hp : pyTruthyStr p <;> by_cases ht2 : pyTruthyStr t <;>
      by_cases hc : pyTruthyStr c <;>
      simp_all [check_tokens, List.filter_cons]
  · intro p t c e now envs he
    have h1 : mainRun p t c now envs = (.error e, []) := by
      unfold mainRun
      rw [he]
    exact ⟨h1, by rw [h1]; rfl⟩

/-- Witness for C9: only the chat id missing — the failure names exactly
`TELEGRAM_CHAT_ID` and the loop never starts. -/
theorem C9_witness :
    check_tokens (some "a") (some "b") none =
      .error (.tokenError ("Отсутствуют данные: " ++
        String.intercalate ", " ["TELEGRAM_CHAT_ID"]))
    ∧ mainRun (some "a") (some "b") none 0 [envOkA] =
        (.error (.tokenError ("Отсутствуют данные: " ++
          String.intercalate ", " ["TELEGRAM_CHAT_ID"])), [])
    ∧ check_tokens (some "a") (some "b") (some "c") = .ok () := by
  have h2 : check_tokens (some "a") (some "b") none =
      .error (.tokenError ("Отсутствуют данные: " ++
        String.intercalate ", " ["TELEGRAM_CHAT_ID"])) :=
    C9_config_guard.2.1 (some "a") (some "b") none (Or.inr (Or.inr rfl))
  refine ⟨h2, ?_, ?_⟩
  · exact (C9_config_guard.2.2 (some "a") (some "b") none _ 0 [envOkA] h2).1
  · exact (C9_config_guard.1 (some "a") (some "b") (some "c")).2 ⟨rfl, rfl, rfl⟩

end HomeworkBot
